import Mathlib

set_option maxRecDepth 10000

/-! Shallow embedding of the multi-subsidiary procurement scraper repository
(multi_subsidiary_scraper.py, final_multi_subsidiary_scraper.py and the
dashboard normalizer in procurement_dashboard.py), together with theorems
settling the specification claims about it. -/

/-! Record normalizer, from load_data in
src/multi_subsidiary/dashboard/procurement_dashboard.py. -/

/-- Static competitor list CONSULTING_COMPANIES from procurement_dashboard.py. -/
def CONSULTING_COMPANIES : List String :=
  ["Accenture", "Deloitte", "PwC", "KPMG", "McKinsey", "BCG", "Bain",
   "Capgemini", "IBM", "EY", "Roland Berger", "Oliver Wyman", "A.T. Kearney",
   "Booz Allen Hamilton", "L.E.K.", "Strategy&", "Monitor Deloitte",
   "Nagarro", "TCS", "Infosys", "Wipro", "Cognizant", "HCL", "Tech Mahindra",
   "CGI", "Atos", "NTT Data", "DXC Technology", "Slalom", "BearingPoint",
   "Sopra Steria", "T-Systems", "Fujitsu", "NEC", "Unisys"]

/-- Checks whether the needle occurs at the head of the haystack. -/
def matchesAt : List Char → List Char → Bool
  | [], _ => true
  | _ :: _, [] => false
  | a :: as, b :: bs => a = b && matchesAt as bs

/-- Substring test over character lists, modelling the Python membership test
needle in hay on strings. -/
def hasSub (needle : List Char) : List Char → Bool
  | [] => needle.isEmpty
  | c :: rest => matchesAt needle (c :: rest) || hasSub needle rest

/-- Python substring membership on strings. -/
def pyIn (needle hay : String) : Bool :=
  hasSub needle.toList hay.toList

/-- Python str.lower applied characterwise. -/
def lowerStr (s : String) : String :=
  String.mk (s.toList.map Char.toLower)

/-- Is_Consulting derivation from load_data: for a present supplier name the flag
is any(consulting in str(x) for consulting in CONSULTING_COMPANIES), a
case-sensitive substring test; a missing (NaN) supplier yields False. -/
def Is_Consulting (x : Option String) : Bool :=
  match x with
  | none => false
  | some s => CONSULTING_COMPANIES.any (fun c => pyIn c s)

/-- consulting_matches list from load_data: the non-missing supplier names whose
lowercase form contains the lowercase form of some consulting company. -/
def consulting_matches (col : List (Option String)) : List String :=
  (col.filterMap id).filter
    (fun comp => CONSULTING_COMPANIES.any (fun c => pyIn (lowerStr c) (lowerStr comp)))

/-- Consulting_Company derivation from load_data: the supplier name itself when it
is in consulting_matches, otherwise None; a missing supplier yields None. -/
def Consulting_Company (col : List (Option String)) (x : Option String) : Option String :=
  match x with
  | none => none
  | some s => if s ∈ consulting_matches col then some s else none

/-- Removal of all dots, modelling str.replace applied with a dot and the empty
string in load_data. -/
def stripDots (l : List Char) : List Char :=
  l.filter (fun c => c ≠ '.')

/-- Replacement of every comma by a dot, modelling the second str.replace in
load_data. -/
def commaToDot (l : List Char) : List Char :=
  l.map (fun c => if c = ',' then '.' else c)

/-- Greedy match of the regular expression of load_data (digits, an optional dot,
more digits) starting at the head of the list, whose head is a digit. -/
def matchNumAt (l : List Char) : List Char :=
  let d1 := l.takeWhile Char.isDigit
  match l.dropWhile Char.isDigit with
  | '.' :: r2 => d1 ++ '.' :: r2.takeWhile Char.isDigit
  | _ => d1

/-- First match of the extraction regex anywhere in the list, None when the list
has no digit, modelling str.extract in load_data. -/
def extractNum : List Char → Option (List Char)
  | [] => none
  | c :: rest => if c.isDigit then some (matchNumAt (c :: rest)) else extractNum rest

/-- Numeric value of a digit list. -/
def digitsToNat (l : List Char) : Nat :=
  l.foldl (fun n c => 10 * n + (c.toNat - 48)) 0

/-- Conversion of a matched numeric token to a rational, modelling pd.to_numeric
with coercion of failures to the missing marker; the value of a token with k
fraction digits is its digit string over 10 to the k. -/
def parseFloatQ (l : List Char) : Option ℚ :=
  let intPart := l.takeWhile Char.isDigit
  if intPart.isEmpty then none
  else
    match l.dropWhile Char.isDigit with
    | [] => some (mkRat (digitsToNat intPart) 1)
    | '.' :: frac =>
        if frac.all Char.isDigit then
          some (mkRat (digitsToNat intPart * 10 ^ frac.length + digitsToNat frac)
                  (10 ^ frac.length))
        else none
    | _ => none

/-- Summe_Clean derivation from load_data: strip the thousands dots, turn the
decimal comma into a dot, extract the first numeric token and coerce it to a
number; anything unparseable becomes the missing marker. -/
def Summe_Clean (s : String) : Option ℚ :=
  (extractNum (commaToDot (stripDots s.toList))).bind parseFloatQ

/-- Sum aggregate over a column with missing markers, skipping the missing
values as pandas sum does. -/
def sumSkipNA (l : List (Option ℚ)) : ℚ :=
  (l.filterMap id).sum

/-- Mean aggregate over a column with missing markers, skipping the missing
values as pandas mean does. -/
def meanSkipNA (l : List (Option ℚ)) : ℚ :=
  sumSkipNA l / ((l.filterMap id).length : ℚ)

/-! Table extractor and pagination loop of the URL-parameter strategy, from
src/multi_subsidiary/scraper/final_multi_subsidiary_scraper.py. A fetched page
is abstracted as the parse-relevant content of the rendered markup: whether a
table is present, the cells of the thead header row (empty when there is no
thead), whether a tbody is present, and the cell texts of each tbody row. -/

/-- Rendered page content as seen by BeautifulSoup in the scrapers. -/
structure Page where
  hasTable : Bool
  headers : List String
  tbodyPresent : Bool
  rows : List (List String)
deriving DecidableEq, Repr

/-- validate_page_content of FinalMultiSubsidiaryScraper: navigation waits for a
table (a timeout is caught and reported as no content), then the page is
reported empty unless a tbody with at least one row exists; on content the row
count is returned. -/
def validate_page_content (p : Page) : Bool × Nat :=
  if !p.hasTable then (false, 0)
  else if !p.tbodyPresent then (false, 0)
  else if p.rows.isEmpty then (false, 0)
  else (true, p.rows.length)

/-- extract_page_data of FinalMultiSubsidiaryScraper: no table gives no headers
and no rows; headers come from the thead; without a tbody there are no data
rows; every tbody row with at least one cell is admitted, with no arity check
against the header width. -/
def extract_page_data (p : Page) : List String × List (List String) :=
  if !p.hasTable then ([], [])
  else if !p.tbodyPresent then (p.headers, [])
  else (p.headers, p.rows.filter (fun r => !r.isEmpty))

/-- Row admission of extract_table_data in MultiSubsidiaryOBBScraper (the headers
argument is the stored header list, which already carries the appended
Subsidiary column): a row is admitted only when it has cells and its cell count
is the header width minus one, and the subsidiary name is then appended. -/
def extract_table_data (headers : List String) (subsidiary_name : String)
    (rows : List (List String)) : List (List String) :=
  rows.filterMap (fun cells =>
    if cells.isEmpty then none
    else if cells.length = headers.length - 1 then some (cells ++ [subsidiary_name])
    else none)

/-- Batch threshold BATCH_SIZE from MultiSubsidiaryScraperConfig. -/
def BATCH_SIZE : Nat := 1000

/-- One write performed by save_data_batch: whether the header line was written,
the header cells passed in, and the data rows of the batch. -/
structure FlushEvent where
  writeHeaders : Bool
  headers : List String
  batch : List (List String)
deriving DecidableEq, Repr

/-- State of the scrape_subsidiary loop of FinalMultiSubsidiaryScraper: the next
page number, the stored headers, the in-memory buffer, the running row count,
the headers-written flag, the writes performed so far, the number of pages
fetched, and whether the loop has exited. -/
structure SubState where
  page : Nat
  headers : List String
  all_data : List (List String)
  total_rows : Nat
  headers_written : Bool
  flushes : List FlushEvent
  fetches : Nat
  finished : Bool
deriving DecidableEq, Repr

/-- Initial state of the scrape_subsidiary loop: page 1, nothing stored. -/
def initState : SubState :=
  { page := 1, headers := [], all_data := [], total_rows := 0,
    headers_written := false, flushes := [], fetches := 0, finished := false }

/-- Body of one non-empty iteration of the scrape_subsidiary loop: extract the
page, adopt its headers when none are stored yet, extend the buffer, and flush
the whole buffer (recording the headers-written flag) once it reaches
BATCH_SIZE; the page number always advances. -/
def stepExtract (p : Page) (s : SubState) : SubState :=
  let pr := extract_page_data p
  let hs := if s.headers.isEmpty && !pr.1.isEmpty then pr.1 else s.headers
  if pr.2.isEmpty then
    { s with headers := hs, page := s.page + 1 }
  else if BATCH_SIZE ≤ (s.all_data ++ pr.2).length then
    { s with headers := hs,
             total_rows := s.total_rows + pr.2.length,
             flushes := s.flushes ++ [⟨!s.headers_written, hs, s.all_data ++ pr.2⟩],
             headers_written := true,
             all_data := [],
             page := s.page + 1 }
  else
    { s with headers := hs,
             total_rows := s.total_rows + pr.2.length,
             all_data := s.all_data ++ pr.2,
             page := s.page + 1 }

/-- Fuel-indexed unfolding of the while-True loop of scrape_subsidiary: each
iteration fetches and validates the page at the current page number, breaking
out on an empty page and extracting otherwise. Exhausted fuel models a run
still in progress. -/
def scrapeLoop (f : Nat → Page) : Nat → SubState → SubState
  | 0, s => s
  | fuel + 1, s =>
    if (validate_page_content (f s.page)).1 then
      scrapeLoop f fuel (stepExtract (f s.page) { s with fetches := s.fetches + 1 })
    else
      { s with fetches := s.fetches + 1, finished := true }

/-- Final write of scrape_subsidiary after the loop exits: when the buffer is
non-empty it is saved with the headers-written flag decided as in the loop. -/
def flushRemaining (s : SubState) : SubState :=
  if s.finished && !s.all_data.isEmpty then
    { s with flushes := s.flushes ++ [⟨!s.headers_written, s.headers, s.all_data⟩] }
  else s

/-- scrape_subsidiary of FinalMultiSubsidiaryScraper for one target, driven by
an abstract fetcher mapping page numbers to rendered pages. -/
def scrape_subsidiary (f : Nat → Page) (fuel : Nat) : SubState :=
  flushRemaining (scrapeLoop f fuel initState)

/-- Lines written to the CSV file by one save_data_batch call: an enhanced
header line when write_headers is set, then every batch row prepended with the
subsidiary name and id. -/
def renderFlush (name id : String) (e : FlushEvent) : List (List String) :=
  (if e.writeHeaders then [["subsidiary_name", "subsidiary_id"] ++ e.headers] else [])
    ++ e.batch.map (fun r => [name, id] ++ r)

/-- Full content of the output file of one target after a run: the writes in
order, appended. -/
def fileLines (name id : String) (s : SubState) : List (List String) :=
  (s.flushes.map (renderFlush name id)).flatten

/-- Total number of data rows written out so far. -/
def flushedRows (s : SubState) : Nat :=
  (s.flushes.map (fun e => e.batch.length)).sum

/-- Header-line discipline of a write sequence: the first write carries the
header line and every later write does not. -/
def FlagsOk (l : List FlushEvent) : Prop :=
  match l with
  | [] => True
  | e :: es => e.writeHeaders = true ∧ ∀ e2 ∈ es, e2.writeHeaders = false

/-- Loop invariant tying the headers-written flag to the writes performed. -/
def HWInv (s : SubState) : Prop :=
  FlagsOk s.flushes ∧ (s.headers_written = true ↔ s.flushes ≠ [])

/-! Control-discovery pagination loop and orchestrator, from
src/multi_subsidiary/scraper/multi_subsidiary_scraper.py. The environment of
one target is abstracted by the observable outcome of each loop iteration: the
number of contracts extract_table_data admits on the page shown at that
iteration (zero covering both an extraction error and an extraction with no
admitted row), and whether click_next_page reports a successful click. -/

/-- Per-target statistics dictionary of scrape_subsidiary in
MultiSubsidiaryOBBScraper. -/
structure CStats where
  pages : Nat
  contracts : Nat
  status : String
deriving DecidableEq, Repr

/-- State of the pagination loop of scrape_subsidiary: the current page counter,
the running contract total, the consecutive-failure counter, the iteration
index into the environment, whether the loop has exited, and the statistics of
an early return. -/
structure ClickState where
  current_page : Nat
  total : Nat
  failures : Nat
  iter : Nat
  finished : Bool
  early : Option CStats
deriving DecidableEq, Repr

/-- Initial state of the pagination loop: page 1, no contracts, no failures. -/
def initClick : ClickState :=
  { current_page := 1, total := 0, failures := 0, iter := 0,
    finished := false, early := none }

/-- Truthiness of the max_pages cap in the Python condition, combined with the
page comparison: None and 0 are falsy. -/
def maxReached : Option Nat → Nat → Bool
  | none, _ => false
  | some m, p => if m = 0 then false else decide (m ≤ p)

/-- Tail of one loop iteration of scrape_subsidiary: break at the max_pages cap,
otherwise click the discovered next control, breaking when no control is found
or the click fails, and otherwise advance to the next page. -/
def clickAdvance (clkf : Nat → Bool) (maxp : Option Nat) (s : ClickState) : ClickState :=
  if maxReached maxp s.current_page then { s with finished := true }
  else if clkf s.iter then { s with current_page := s.current_page + 1, iter := s.iter + 1 }
  else { s with finished := true }

/-- One iteration of the while-True loop of scrape_subsidiary in
MultiSubsidiaryOBBScraper: a successful extraction with at least one admitted
contract adds to the total and resets the consecutive-failure counter; a
failure on page 1 returns no_data immediately; the third consecutive failure
breaks the loop; otherwise the iteration falls through to the max_pages check
and the next-page click. -/
def clickStep (extf : Nat → Nat) (clkf : Nat → Bool) (maxp : Option Nat)
    (s : ClickState) : ClickState :=
  let c := extf s.iter
  if 0 < c then
    clickAdvance clkf maxp { s with total := s.total + c, failures := 0 }
  else
    let fl := s.failures + 1
    if s.current_page = 1 then
      { s with failures := fl, finished := true, early := some ⟨1, 0, "no_data"⟩ }
    else if 3 ≤ fl then
      { s with failures := fl, finished := true }
    else
      clickAdvance clkf maxp { s with failures := fl }

/-- Fuel-indexed unfolding of the while-True loop of scrape_subsidiary in
MultiSubsidiaryOBBScraper; exhausted fuel models a run still in progress. -/
def clickLoop (extf : Nat → Nat) (clkf : Nat → Bool) (maxp : Option Nat) :
    Nat → ClickState → ClickState
  | 0, s => s
  | fuel + 1, s =>
    if s.finished then s else clickLoop extf clkf maxp fuel (clickStep extf clkf maxp s)

/-- Statistics returned by scrape_subsidiary once the loop has exited: the early
no_data dictionary when one was returned, and otherwise completed or empty by
whether any contracts were extracted; None while the loop still runs. -/
def clickResult (s : ClickState) : Option CStats :=
  if !s.finished then none
  else
    match s.early with
    | some st => some st
    | none => some ⟨s.current_page, s.total,
        if 0 < s.total then "completed" else "empty"⟩

/-- Control-discovery scrape of one target, from loop entry (the pre-loop page
checks of scrape_subsidiary always terminate and are not modelled). -/
def scrape_subsidiary_click (extf : Nat → Nat) (clkf : Nat → Bool)
    (maxp : Option Nat) (fuel : Nat) : Option CStats :=
  clickResult (clickLoop extf clkf maxp fuel initClick)

/-- Per-target result dictionary recorded by scrape_all_subsidiaries in
MultiSubsidiaryOBBScraper. -/
structure RStats where
  pages : Nat
  contracts : Nat
  status : String
  error : Option String
deriving DecidableEq, Repr

/-- scrape_all_subsidiaries of MultiSubsidiaryOBBScraper: each configured target
is processed in order; the per-target scrape is abstracted as a fallible call,
and a raised exception is caught and recorded as a result dictionary with
status error and the exception text, after which the loop moves on. -/
def scrape_all_subsidiaries (targets : List (String × String))
    (scrape : String → String → Except String RStats) : List (String × RStats) :=
  match targets with
  | [] => []
  | (nm, url) :: rest =>
    let st := match scrape nm url with
      | .ok st => st
      | .error e => ⟨0, 0, "error", some e⟩
    (nm, st) :: scrape_all_subsidiaries rest scrape

/-! Concrete fetchers and environments used as test inputs. -/

/-- Page with the given tbody rows under a one-column header. -/
def pageOf (rows : List (List String)) : Page :=
  { hasTable := true, headers := ["H"], tbodyPresent := true, rows := rows }

/-- Page whose table and tbody are present but hold zero rows. -/
def emptyPage : Page :=
  { hasTable := true, headers := ["H"], tbodyPresent := true, rows := [] }

/-- Fetcher with two one-row pages followed by empty pages. -/
def fTwo : Nat → Page :=
  fun p => if p ≤ 2 then pageOf [["r"]] else emptyPage

/-- Fetcher with a single one-row page followed by empty pages. -/
def fOne : Nat → Page :=
  fun p => if p = 1 then pageOf [["r"]] else emptyPage

/-- Fetcher whose first page carries 2500 rows at once, followed by empty
pages. -/
def f2500 : Nat → Page :=
  fun p => if p = 1 then pageOf (List.replicate 2500 ["x"]) else emptyPage

/-- Fetcher with five pages of 500 rows each, followed by empty pages. -/
def f500 : Nat → Page :=
  fun p => if p ≤ 5 then pageOf (List.replicate 500 ["x"]) else emptyPage

/-- Environment whose extraction always admits one contract. -/
def extAll : Nat → Nat := fun _ => 1

/-- Environment whose click always succeeds. -/
def clkAll : Nat → Bool := fun _ => true

/-- Environment with a successful first extraction and failures afterwards. -/
def ext6 : Nat → Nat := fun i => if i = 0 then 5 else 0

/-- Environment with a success, two failures, a success, then only failures. -/
def ext7 : Nat → Nat :=
  fun i => if i = 0 then 2 else if i = 3 then 2 else 0

/-- Three-target configuration for the failure-isolation scenario. -/
def threeTargets : List (String × String) :=
  [("s1", "u1"), ("s2", "u2"), ("s3", "u3")]

/-- Scrape behaviour whose second target always raises. -/
def scrapeBoom : String → String → Except String RStats :=
  fun nm _ => if nm = "s2" then .error "fetch boom" else .ok ⟨2, 10, "completed", none⟩

/-- Page whose header row has three columns but whose single body row has one
cell. -/
def pBad : Page :=
  { hasTable := true, headers := ["A", "B", "C"], tbodyPresent := true, rows := [["x"]] }

/-! Theorems. -/

/-- C8, counterexample: the Is_Consulting flag is not a case-insensitive match.
The supplier ACCENTURE GMBH is flagged false although a case-insensitive
substring match against the consulting list succeeds on it. -/
theorem C8_counterexample :
    Is_Consulting (some "ACCENTURE GMBH") = false
    ∧ CONSULTING_COMPANIES.any (fun c => pyIn (lowerStr c) (lowerStr "ACCENTURE GMBH")) = true := by
  decide

/-- C8, amended: the Is_Consulting flag is a case-sensitive substring match of
the supplier name against the consulting list (some entry is a substring of
the supplier, exactly), while the Consulting_Company derivation matches
case-insensitively; the two spec examples hold: Accenture GmbH is flagged
true with matched name Accenture GmbH, and Stadtbau AG is flagged false. -/
theorem C8_thm :
    Is_Consulting (some "Accenture GmbH") = true
    ∧ Is_Consulting (some "Stadtbau AG") = false
    ∧ Is_Consulting (some "ACCENTURE GMBH") = false
    ∧ (∀ s : String, Is_Consulting (some s) = true
        ↔ ∃ c ∈ CONSULTING_COMPANIES, pyIn c s = true)
    ∧ pyIn "Accenture" "Accenture GmbH" = true
    ∧ Consulting_Company [some "Accenture GmbH", some "Stadtbau AG"]
        (some "Accenture GmbH") = some "Accenture GmbH"
    ∧ Consulting_Company [some "Accenture GmbH", some "Stadtbau AG"]
        (some "Stadtbau AG") = none := by
  refine ⟨by decide, by decide, by decide, ?_, by decide, by decide, by decide⟩
  intro s
  simp [Is_Consulting, List.any_eq_true]

/-- C9: the monetary parser maps the locale-formatted string 1.234.567,89 to the
rational 1234567.89, maps the unparseable n/a to the missing marker instead of
an error, and sum and mean aggregates skip the missing values. -/
theorem C9_thm :
    Summe_Clean "1.234.567,89" = some (1234567.89 : ℚ)
    ∧ Summe_Clean "n/a" = none
    ∧ sumSkipNA [Summe_Clean "1.234.567,89", Summe_Clean "n/a"] = (1234567.89 : ℚ)
    ∧ meanSkipNA [Summe_Clean "1.234.567,89", Summe_Clean "n/a"] = (1234567.89 : ℚ) := by
  have h : Summe_Clean "1.234.567,89" = some (mkRat 123456789 100) := by decide
  have hq : (mkRat 123456789 100 : ℚ) = (1234567.89 : ℚ) := by
    rw [Rat.mkRat_eq_div]; norm_num
  have hna : Summe_Clean "n/a" = none := by decide
  refine ⟨by rw [h, hq], hna, ?_, ?_⟩
  · rw [sumSkipNA, h, hq, hna]; simp
  · rw [meanSkipNA, sumSkipNA, h, hq, hna]; simp

/-- C10: a missing supplier name yields Is_Consulting false (not a missing
value) and Consulting_Company None, and missing names contribute nothing to
the competitor match list; totality of the definitions models the absence of
a raised error. -/
theorem C10_thm :
    Is_Consulting none = false
    ∧ (∀ col : List (Option String), Consulting_Company col none = none)
    ∧ (∀ col : List (Option String),
        consulting_matches (none :: col) = consulting_matches col) := by
  refine ⟨rfl, fun col => rfl, fun col => ?_⟩
  simp [consulting_matches]

/-- C1, counterexample: extract_page_data of the final scraper admits a row
whose cell count is neither the header width nor the header width minus one;
the one-cell row of pBad is admitted under a three-column header. -/
theorem C1_counterexample :
    [("x" : String)] ∈ (extract_page_data pBad).2
    ∧ pBad.headers.length = 3
    ∧ ¬(([("x" : String)]).length = pBad.headers.length
        ∨ ([("x" : String)]).length = pBad.headers.length - 1) := by
  decide

/-- C1, amended: in extract_table_data of MultiSubsidiaryOBBScraper every
admitted row comes from a source row with exactly header width minus one cells
and carries exactly header width cells after the subsidiary column is
appended, rows of any other arity being silently dropped (the function is
total, so no crash); in extract_page_data of the final scraper every row with
at least one cell is admitted, with no arity check at all. -/
theorem C1_thm (headers : List String) (sub : String)
    (rows : List (List String)) (p : Page) :
    (∀ r ∈ extract_table_data headers sub rows,
        r.length = headers.length
        ∧ ∃ c ∈ rows, c.length = headers.length - 1 ∧ r = c ++ [sub])
    ∧ (∀ c ∈ rows, c.length ≠ headers.length - 1
        → c ++ [sub] ∉ extract_table_data headers sub rows)
    ∧ (∀ q ∈ (extract_page_data p).2, q ≠ [] ∧ q ∈ p.rows) := by
  have hmem : ∀ r ∈ extract_table_data headers sub rows,
      r.length = headers.length
      ∧ ∃ c ∈ rows, c.length = headers.length - 1 ∧ r = c ++ [sub] := by
    intro r hr
    rw [extract_table_data, List.mem_filterMap] at hr
    obtain ⟨c, hc, hf⟩ := hr
    by_cases h1 : c.isEmpty
    · simp [h1] at hf
    · by_cases h2 : c.length = headers.length - 1
      · simp [h1, h2] at hf
        have hcne : c ≠ [] := by
          intro hnil; rw [hnil] at h1; exact h1 rfl
        have hpos : 0 < c.length := List.length_pos.mpr hcne
        constructor
        · rw [← hf, List.length_append, List.length_singleton, h2]
          omega
        · exact ⟨c, hc, h2, hf.symm⟩
      · simp [h1, h2] at hf
  refine ⟨hmem, ?_, ?_⟩
  · intro c hc hne hmem2
    obtain ⟨hlen, -⟩ := hmem (c ++ [sub]) hmem2
    rw [List.length_append, List.length_singleton] at hlen
    omega
  · intro q hq
    rw [extract_page_data] at hq
    by_cases ht : p.hasTable
    · by_cases hb : p.tbodyPresent
      · simp [ht, hb] at hq
        exact ⟨by simpa using hq.2, hq.1⟩
      · simp [ht, hb] at hq
    · simp [ht] at hq

/-- C1, witness: the amended acceptance rule evaluated on a concrete admitted
row of a concrete extraction. -/
theorem C1_witness :
    ([("x" : String), "y"] ++ ["S"]).length = (["A", "B", "Subsidiary"] : List String).length := by
  have h := (C1_thm ["A", "B", "Subsidiary"] "S" [["x", "y"], ["bad"]] pBad).1
  have hm : ([("x" : String), "y"] ++ ["S"])
      ∈ extract_table_data ["A", "B", "Subsidiary"] "S" [["x", "y"], ["bad"]] := by decide
  exact (h _ hm).1

/-- Unfolding of one loop iteration that hits an empty page. -/
theorem scrapeLoop_stop (f : Nat → Page) (fuel : Nat) (s : SubState)
    (h : (validate_page_content (f s.page)).1 = false) :
    scrapeLoop f (fuel + 1) s = { s with fetches := s.fetches + 1, finished := true } := by
  simp [scrapeLoop, h]

/-- Unfolding of one loop iteration that hits a page with content. -/
theorem scrapeLoop_go (f : Nat → Page) (fuel : Nat) (s : SubState)
    (h : (validate_page_content (f s.page)).1 = true) :
    scrapeLoop f (fuel + 1) s
      = scrapeLoop f fuel (stepExtract (f s.page) { s with fetches := s.fetches + 1 }) := by
  simp [scrapeLoop, h]

/-- Extraction advances the page cursor by one. -/
theorem stepExtract_page (p : Page) (s : SubState) :
    (stepExtract p s).page = s.page + 1 := by
  simp only [stepExtract]
  split
  · rfl
  · split <;> rfl

/-- Extraction leaves the fetch counter unchanged. -/
theorem stepExtract_fetches (p : Page) (s : SubState) :
    (stepExtract p s).fetches = s.fetches := by
  simp only [stepExtract]
  split
  · rfl
  · split <;> rfl

/-- Extraction leaves the finished flag unchanged. -/
theorem stepExtract_finished (p : Page) (s : SubState) :
    (stepExtract p s).finished = s.finished := by
  simp only [stepExtract]
  split
  · rfl
  · split <;> rfl

/-- The final write leaves the fetch counter unchanged. -/
theorem flushRemaining_fetches (s : SubState) :
    (flushRemaining s).fetches = s.fetches := by
  simp only [flushRemaining]
  split <;> rfl

/-- The final write leaves the finished flag unchanged. -/
theorem flushRemaining_finished (s : SubState) :
    (flushRemaining s).finished = s.finished := by
  simp only [flushRemaining]
  split <;> rfl

/-- The final write leaves the row total unchanged. -/
theorem flushRemaining_total (s : SubState) :
    (flushRemaining s).total_rows = s.total_rows := by
  simp only [flushRemaining]
  split <;> rfl

/-- Page-count computation of the loop: from a state whose next k pages validate
as non-empty and whose page k steps further validates as empty, the loop
performs exactly k plus one further fetches and exits. -/
theorem scrapeLoop_pages (f : Nat → Page) :
    ∀ (k fuel : Nat) (s : SubState),
      (∀ q, s.page ≤ q → q < s.page + k → (validate_page_content (f q)).1 = true) →
      (validate_page_content (f (s.page + k))).1 = false →
      k < fuel →
      (scrapeLoop f fuel s).fetches = s.fetches + k + 1
      ∧ (scrapeLoop f fuel s).finished = true := by
  intro k
  induction k with
  | zero =>
    intro fuel s _ hstop hf
    cases fuel with
    | zero => omega
    | succ fuel =>
      rw [scrapeLoop_stop f fuel s (by simpa using hstop)]
      exact ⟨rfl, rfl⟩
  | succ k ih =>
    intro fuel s hall hstop hf
    cases fuel with
    | zero => omega
    | succ fuel =>
      have hv : (validate_page_content (f s.page)).1 = true :=
        hall s.page le_rfl (by omega)
      rw [scrapeLoop_go f fuel s hv]
      have hpage : (stepExtract (f s.page) { s with fetches := s.fetches + 1 }).page
          = s.page + 1 := stepExtract_page _ _
      have hfet : (stepExtract (f s.page) { s with fetches := s.fetches + 1 }).fetches
          = s.fetches + 1 := stepExtract_fetches _ _
      have hrec := ih fuel (stepExtract (f s.page) { s with fetches := s.fetches + 1 })
        (by intro q hq1 hq2
            rw [hpage] at hq1 hq2
            exact hall q (by omega) (by omega))
        (by rw [hpage]
            have : s.page + 1 + k = s.page + (k + 1) := by omega
            rw [this]
            exact hstop)
        (by omega)
      refine ⟨?_, hrec.2⟩
      rw [hrec.1, hfet]
      omega

/-- C2: with the URL-parameter pagination strategy, a fetcher yielding N
consecutive pages whose table body holds at least one row followed by a page
whose table body holds zero rows makes the scrape loop visit exactly N plus
one pages and stop, the empty page being treated as end of data. -/
theorem C2_thm (f : Nat → Page) (N fuel : Nat)
    (hfull : ∀ p, 1 ≤ p → p ≤ N →
      (f p).hasTable = true ∧ (f p).tbodyPresent = true ∧ (f p).rows ≠ [])
    (hempty : (f (N + 1)).hasTable = true ∧ (f (N + 1)).tbodyPresent = true
      ∧ (f (N + 1)).rows = [])
    (hfuel : N < fuel) :
    (scrape_subsidiary f fuel).fetches = N + 1
    ∧ (scrape_subsidiary f fuel).finished = true := by
  have hvt : ∀ p, 1 ≤ p → p ≤ N → (validate_page_content (f p)).1 = true := by
    intro p h1 h2
    obtain ⟨a, b, c⟩ := hfull p h1 h2
    cases hrows : (f p).rows with
    | nil => exact absurd hrows c
    | cons x xs => simp [validate_page_content, a, b, hrows]
  have hve : (validate_page_content (f (N + 1))).1 = false := by
    obtain ⟨a, b, c⟩ := hempty
    simp [validate_page_content, a, b, c]
  have h := scrapeLoop_pages f N fuel initState
    (by intro q hq1 hq2
        have hp : initState.page = 1 := rfl
        rw [hp] at hq1 hq2
        exact hvt q hq1 (by omega))
    (by have hp : initState.page = 1 := rfl
        rw [hp, Nat.add_comm]
        exact hve)
    hfuel
  rw [scrape_subsidiary]
  rw [flushRemaining_fetches, flushRemaining_finished]
  refine ⟨?_, h.2⟩
  rw [h.1]
  simp [initState]

/-- C2, witness: two one-row pages followed by an empty page give exactly three
page visits. -/
theorem C2_witness :
    (scrape_subsidiary fTwo 3).fetches = 2 + 1
    ∧ (scrape_subsidiary fTwo 3).finished = true := by
  have h := C2_thm fTwo 2 3
    (by intro p h1 h2
        interval_cases p <;> exact ⟨by decide, by decide, by decide⟩)
    ⟨by decide, by decide, by decide⟩
    (by omega)
  exact h

/-- Filtering the nonempty-cell check over uniform one-cell rows keeps them
all. -/
theorem repl_filter (n : Nat) :
    (List.replicate n (["x"] : List String)).filter (fun r => !r.isEmpty)
      = List.replicate n ["x"] := by
  induction n with
  | zero => rfl
  | succ k ih => simp [List.replicate_succ, List.filter_cons, ih]

/-- Validation sees content on a page of n plus one uniform rows. -/
theorem validate_pageOf_repl (n : Nat) :
    validate_page_content (pageOf (List.replicate (n + 1) ["x"])) = (true, n + 1) := by
  simp [validate_page_content, pageOf, List.replicate_succ]

/-- Extraction of a page of uniform one-cell rows returns them all. -/
theorem extract_pageOf_repl (n : Nat) :
    extract_page_data (pageOf (List.replicate n ["x"])) = (["H"], List.replicate n ["x"]) := by
  simp [extract_page_data, pageOf, repl_filter]

/-- Step on a 500-row page from an empty buffer with headers already set:
the rows are buffered, no flush happens. -/
theorem step500_buffer (s : SubState) (h1 : s.headers = ["H"]) (h2 : s.all_data = []) :
    stepExtract (pageOf (List.replicate 500 ["x"])) s
      = { s with all_data := List.replicate 500 ["x"],
                 total_rows := s.total_rows + 500, page := s.page + 1 } := by
  simp only [stepExtract, extract_pageOf_repl, h1, h2]
  norm_num [BATCH_SIZE, List.replicate_eq_nil_iff]

/-- Step on a 500-row page from an empty buffer with no headers yet: headers are
adopted, the rows are buffered, no flush happens. -/
theorem step500_first (s : SubState) (h1 : s.headers = []) (h2 : s.all_data = []) :
    stepExtract (pageOf (List.replicate 500 ["x"])) s
      = { s with headers := ["H"], all_data := List.replicate 500 ["x"],
                 total_rows := s.total_rows + 500, page := s.page + 1 } := by
  simp only [stepExtract, extract_pageOf_repl, h1, h2]
  norm_num [BATCH_SIZE, List.replicate_eq_nil_iff]

/-- Step on a 500-row page from a 500-row buffer: the buffer reaches the batch
threshold and the whole buffer is flushed. -/
theorem step500_flush (s : SubState) (h1 : s.headers = ["H"])
    (h2 : s.all_data = List.replicate 500 ["x"]) :
    stepExtract (pageOf (List.replicate 500 ["x"])) s
      = { s with all_data := [],
                 total_rows := s.total_rows + 500,
                 headers_written := true,
                 flushes := s.flushes
                   ++ [⟨!s.headers_written, ["H"],
                        List.replicate 500 ["x"] ++ List.replicate 500 ["x"]⟩],
                 page := s.page + 1 } := by
  simp only [stepExtract, extract_pageOf_repl, h1, h2]
  norm_num [BATCH_SIZE, List.replicate_eq_nil_iff]

/-- Step on a single page of 2500 rows from the start state: the threshold is
passed at once and a single flush of all 2500 rows happens. -/
theorem step2500_first (s : SubState) (h1 : s.headers = []) (h2 : s.all_data = []) :
    stepExtract (pageOf (List.replicate 2500 ["x"])) s
      = { s with headers := ["H"], all_data := [],
                 total_rows := s.total_rows + 2500,
                 headers_written := true,
                 flushes := s.flushes
                   ++ [⟨!s.headers_written, ["H"], List.replicate 2500 ["x"]⟩],
                 page := s.page + 1 } := by
  simp only [stepExtract, extract_pageOf_repl, h1, h2]
  norm_num [BATCH_SIZE, List.replicate_eq_nil_iff]

/-- Pages one to five of the five-page fetcher validate as non-empty. -/
theorem validate_f500 (p : Nat) (h2 : p ≤ 5) :
    (validate_page_content (f500 p)).1 = true := by
  have hp : f500 p = pageOf (List.replicate 500 ["x"]) := by
    simp [f500, if_pos h2]
  rw [hp, show (500 : Nat) = 499 + 1 from rfl, validate_pageOf_repl]

/-- Page six of the five-page fetcher validates as empty. -/
theorem validate_f500_6 : (validate_page_content (f500 6)).1 = false := by
  have hp : f500 6 = emptyPage := by norm_num [f500]
  rw [hp]; rfl

/-- Full run of the loop on the five-page fetcher: three writes of sizes 1000,
1000 and 500, the first carrying the header line, and 2500 rows in total. -/
theorem f500_run :
    scrape_subsidiary f500 6
      = { page := 6, headers := ["H"], all_data := List.replicate 500 ["x"],
          total_rows := 2500, headers_written := true,
          flushes := [⟨true, ["H"], List.replicate 500 ["x"] ++ List.replicate 500 ["x"]⟩,
                      ⟨false, ["H"], List.replicate 500 ["x"] ++ List.replicate 500 ["x"]⟩,
                      ⟨false, ["H"], List.replicate 500 ["x"]⟩],
          fetches := 6, finished := true } := by
  have h1 : scrapeLoop f500 6 initState
      = scrapeLoop f500 5 ⟨2, ["H"], List.replicate 500 ["x"], 500, false, [], 1, false⟩ := by
    rw [show (6 : Nat) = 5 + 1 from rfl,
        scrapeLoop_go f500 5 initState (validate_f500 1 (by norm_num))]
    congr 1
  have h2 : scrapeLoop f500 5 ⟨2, ["H"], List.replicate 500 ["x"], 500, false, [], 1, false⟩
      = scrapeLoop f500 4 ⟨3, ["H"], [], 1000, true,
          [⟨true, ["H"], List.replicate 500 ["x"] ++ List.replicate 500 ["x"]⟩], 2, false⟩ := by
    rw [show (5 : Nat) = 4 + 1 from rfl,
        scrapeLoop_go f500 4 _ (validate_f500 2 (by norm_num))]
    congr 1
  have h3 : scrapeLoop f500 4 ⟨3, ["H"], [], 1000, true,
        [⟨true, ["H"], List.replicate 500 ["x"] ++ List.replicate 500 ["x"]⟩], 2, false⟩
      = scrapeLoop f500 3 ⟨4, ["H"], List.replicate 500 ["x"], 1500, true,
          [⟨true, ["H"], List.replicate 500 ["x"] ++ List.replicate 500 ["x"]⟩], 3, false⟩ := by
    rw [show (4 : Nat) = 3 + 1 from rfl,
        scrapeLoop_go f500 3 _ (validate_f500 3 (by norm_num))]
    congr 1
  have h4 : scrapeLoop f500 3 ⟨4, ["H"], List.replicate 500 ["x"], 1500, true,
        [⟨true, ["H"], List.replicate 500 ["x"] ++ List.replicate 500 ["x"]⟩], 3, false⟩
      = scrapeLoop f500 2 ⟨5, ["H"], [], 2000, true,
          [⟨true, ["H"], List.replicate 500 ["x"] ++ List.replicate 500 ["x"]⟩,
           ⟨false, ["H"], List.replicate 500 ["x"] ++ List.replicate 500 ["x"]⟩], 4, false⟩ := by
    rw [show (3 : Nat) = 2 + 1 from rfl,
        scrapeLoop_go f500 2 _ (validate_f500 4 (by norm_num))]
    congr 1
  have h5 : scrapeLoop f500 2 ⟨5, ["H"], [], 2000, true,
        [⟨true, ["H"], List.replicate 500 ["x"] ++ List.replicate 500 ["x"]⟩,
         ⟨false, ["H"], List.replicate 500 ["x"] ++ List.replicate 500 ["x"]⟩], 4, false⟩
      = scrapeLoop f500 1 ⟨6, ["H"], List.replicate 500 ["x"], 2500, true,
          [⟨true, ["H"], List.replicate 500 ["x"] ++ List.replicate 500 ["x"]⟩,
           ⟨false, ["H"], List.replicate 500 ["x"] ++ List.replicate 500 ["x"]⟩], 5, false⟩ := by
    rw [show (2 : Nat) = 1 + 1 from rfl,
        scrapeLoop_go f500 1 _ (validate_f500 5 (by norm_num))]
    congr 1
  have h6 : scrapeLoop f500 1 ⟨6, ["H"], List.replicate 500 ["x"], 2500, true,
        [⟨true, ["H"], List.replicate 500 ["x"] ++ List.replicate 500 ["x"]⟩,
         ⟨false, ["H"], List.replicate 500 ["x"] ++ List.replicate 500 ["x"]⟩], 5, false⟩
      = ⟨6, ["H"], List.replicate 500 ["x"], 2500, true,
          [⟨true, ["H"], List.replicate 500 ["x"] ++ List.replicate 500 ["x"]⟩,
           ⟨false, ["H"], List.replicate 500 ["x"] ++ List.replicate 500 ["x"]⟩], 6, true⟩ := by
    rw [show (1 : Nat) = 0 + 1 from rfl, scrapeLoop_stop f500 0 _ validate_f500_6]
  rw [scrape_subsidiary, h1, h2, h3, h4, h5, h6]
  rw [flushRemaining]
  norm_num [List.replicate_eq_nil_iff]

/-- Full run of the loop on the single-page 2500-row fetcher: one write of all
2500 rows. -/
theorem f2500_run :
    scrape_subsidiary f2500 2
      = ⟨2, ["H"], [], 2500, true, [⟨true, ["H"], List.replicate 2500 ["x"]⟩], 2, true⟩ := by
  have hv1 : (validate_page_content (f2500 1)).1 = true := by
    rw [show f2500 1 = pageOf (List.replicate 2500 ["x"]) from by norm_num [f2500],
        show (2500 : Nat) = 2499 + 1 from rfl, validate_pageOf_repl]
  have hv2 : (validate_page_content (f2500 2)).1 = false := by
    rw [show f2500 2 = emptyPage from by norm_num [f2500]]
    rfl
  have h1 : scrapeLoop f2500 2 initState
      = scrapeLoop f2500 1
          ⟨2, ["H"], [], 2500, true, [⟨true, ["H"], List.replicate 2500 ["x"]⟩], 1, false⟩ := by
    rw [show (2 : Nat) = 1 + 1 from rfl, scrapeLoop_go f2500 1 initState hv1]
    rw [show f2500 initState.page = pageOf (List.replicate 2500 ["x"]) from by
          norm_num [f2500, initState]]
    rw [step2500_first _ rfl rfl]
    rfl
  have h2 : scrapeLoop f2500 1
        ⟨2, ["H"], [], 2500, true, [⟨true, ["H"], List.replicate 2500 ["x"]⟩], 1, false⟩
      = ⟨2, ["H"], [], 2500, true, [⟨true, ["H"], List.replicate 2500 ["x"]⟩], 2, true⟩ := by
    rw [show (1 : Nat) = 0 + 1 from rfl, scrapeLoop_stop f2500 0 _ hv2]
  rw [scrape_subsidiary, h1, h2, flushRemaining]
  norm_num

/-- Extraction preserves the balance between rows written, rows buffered and
rows counted. -/
theorem stepExtract_balance (p : Page) (s : SubState)
    (h : flushedRows s + s.all_data.length = s.total_rows) :
    flushedRows (stepExtract p s) + (stepExtract p s).all_data.length
      = (stepExtract p s).total_rows := by
  simp only [flushedRows] at h ⊢
  simp only [stepExtract]
  split
  · simpa using h
  · split
    · simp only [List.map_append, List.sum_append, List.length_append, List.map_cons,
        List.map_nil, List.sum_cons, List.sum_nil, List.length_nil]
      omega
    · simp only [List.length_append]
      omega

/-- The loop preserves the balance between rows written, rows buffered and rows
counted. -/
theorem scrapeLoop_balance (f : Nat → Page) :
    ∀ (fuel : Nat) (s : SubState),
      flushedRows s + s.all_data.length = s.total_rows →
      flushedRows (scrapeLoop f fuel s) + (scrapeLoop f fuel s).all_data.length
        = (scrapeLoop f fuel s).total_rows := by
  intro fuel
  induction fuel with
  | zero => intro s h; simpa [scrapeLoop] using h
  | succ fuel ih =>
    intro s h
    by_cases hv : (validate_page_content (f s.page)).1 = true
    · rw [scrapeLoop_go f fuel s hv]
      exact ih _ (stepExtract_balance _ _ h)
    · rw [scrapeLoop_stop f fuel s (by simpa using hv)]
      exact h

/-- After a finished loop the final write brings the written total up to the
extracted total. -/
theorem flushRemaining_balance (s : SubState) (hfin : s.finished = true)
    (h : flushedRows s + s.all_data.length = s.total_rows) :
    flushedRows (flushRemaining s) = (flushRemaining s).total_rows := by
  simp only [flushedRows] at h ⊢
  simp only [flushRemaining, hfin]
  by_cases he : s.all_data.isEmpty
  · have hlen : s.all_data.length = 0 := by
      cases hd : s.all_data with
      | nil => rfl
      | cons a l => rw [hd] at he; simp at he
    simp [he]
    omega
  · simp [he, List.map_append, List.sum_append]
    omega

/-- C3, counterexample: a target whose pages carry 2500 extracted rows in total
need not produce three writes of 1000, 1000 and 500 rows; when all 2500 rows
arrive on a single page the whole buffer is written in one flush of 2500
rows, because the loop flushes the entire buffer whenever it holds at least
BATCH_SIZE rows. -/
theorem C3_counterexample :
    (scrape_subsidiary f2500 2).total_rows = 2500
    ∧ (scrape_subsidiary f2500 2).flushes.map (fun e => e.batch.length) = [2500]
    ∧ (scrape_subsidiary f2500 2).flushes.map (fun e => e.batch.length)
        ≠ [1000, 1000, 500] := by
  refine ⟨by rw [f2500_run], ?_, ?_⟩
  · rw [f2500_run]
    simp
  · rw [f2500_run]
    simp

/-- C3, amended: when the 2500 rows arrive in pages whose sizes let the buffer
hit the threshold exactly (five pages of 500 rows), exactly three writes of
1000, 1000 and 500 rows occur; and on every run whose loop has exited, the
rows written equal the rows extracted, the final write after the loop exit
covering the last short buffer, so no fully-extracted row is lost on a
handled exit path. -/
theorem C3_thm (f : Nat → Page) (fuel : Nat)
    (h : (scrape_subsidiary f fuel).finished = true) :
    flushedRows (scrape_subsidiary f fuel) = (scrape_subsidiary f fuel).total_rows
    ∧ (scrape_subsidiary f500 6).flushes.map (fun e => e.batch.length) = [1000, 1000, 500]
    ∧ (scrape_subsidiary f500 6).total_rows = 2500 := by
  refine ⟨?_, ?_, by rw [f500_run]⟩
  · have hloop : (scrapeLoop f fuel initState).finished = true := by
      rw [scrape_subsidiary, flushRemaining_finished] at h
      exact h
    have hb := scrapeLoop_balance f fuel initState (by simp [flushedRows, initState])
    exact flushRemaining_balance _ hloop hb
  · rw [f500_run]
    simp

/-- C3, witness: the durability equality evaluated on the five-page run. -/
theorem C3_witness :
    flushedRows (scrape_subsidiary f500 6) = (scrape_subsidiary f500 6).total_rows := by
  have hfin : (scrape_subsidiary f500 6).finished = true := by rw [f500_run]
  exact (C3_thm f500 6 hfin).1

/-- Appending a write whose header flag is the negation of the headers-written
flag keeps the header-line discipline, provided the flag tracked whether a
write had happened. -/
theorem appendFlag (l : List FlushEvent) (hw : Bool) (hd : List String)
    (bt : List (List String)) (hF : FlagsOk l) (hIff : hw = true ↔ l ≠ []) :
    FlagsOk (l ++ [⟨!hw, hd, bt⟩]) := by
  cases l with
  | nil =>
    have hwf : hw = false := by
      cases hhw : hw with
      | false => rfl
      | true => exact absurd rfl (hIff.mp hhw)
    unfold FlagsOk
    simp [hwf]
  | cons e es =>
    have hwt : hw = true := hIff.mpr (by simp)
    have h3 : e.writeHeaders = true ∧ ∀ e2 ∈ es, e2.writeHeaders = false := hF
    unfold FlagsOk
    simp only [List.cons_append]
    refine ⟨h3.1, ?_⟩
    intro e2 he2
    rw [List.mem_append] at he2
    rcases he2 with h4 | h4
    · exact h3.2 e2 h4
    · simp at h4
      rw [h4, hwt]
      rfl

/-- Extraction preserves the header-flag invariant: a flush performed at the
threshold carries the header line exactly when no flush happened before. -/
theorem stepExtract_hw (p : Page) (s : SubState) (h : HWInv s) :
    HWInv (stepExtract p s) := by
  simp only [stepExtract]
  split
  · exact h
  · split
    · exact ⟨appendFlag s.flushes s.headers_written _ _ h.1 h.2, by simp⟩
    · exact h

/-- The loop preserves the header-flag invariant. -/
theorem scrapeLoop_hw (f : Nat → Page) :
    ∀ (fuel : Nat) (s : SubState), HWInv s → HWInv (scrapeLoop f fuel s) := by
  intro fuel
  induction fuel with
  | zero => intro s h; simpa [scrapeLoop] using h
  | succ fuel ih =>
    intro s h
    by_cases hv : (validate_page_content (f s.page)).1 = true
    · rw [scrapeLoop_go f fuel s hv]
      exact ih _ (stepExtract_hw _ _ h)
    · rw [scrapeLoop_stop f fuel s (by simpa using hv)]
      exact h

/-- The final write keeps the header-line discipline of the write sequence. -/
theorem flushRemaining_flags (s : SubState) (h : HWInv s) :
    FlagsOk (flushRemaining s).flushes := by
  simp only [flushRemaining]
  split
  · exact appendFlag s.flushes s.headers_written _ _ h.1 h.2
  · exact h.1

/-- Writes that do not carry the header line render as data rows only, each
prepended with the subsidiary identity. -/
theorem flatten_render (name id : String) (es : List FlushEvent)
    (h : ∀ e ∈ es, e.writeHeaders = false) :
    (es.map (renderFlush name id)).flatten
      = ((es.map (fun e => e.batch)).flatten).map (fun r => [name, id] ++ r) := by
  induction es with
  | nil => rfl
  | cons e es ih =>
    have he : e.writeHeaders = false := h e (by simp)
    simp only [List.map_cons, List.flatten_cons, renderFlush, he]
    rw [ih (by intro e2 h2; exact h e2 (by simp [h2]))]
    simp [List.map_append]

/-- C7: whenever a run of a target performed at least one write, the persisted
file starts with exactly one header line, the original portal headers
prepended with the subsidiary identity columns, and every following line is a
data row prepended with the subsidiary name and id; the first write carries
the header line and every later write appends data rows only. -/
theorem C7_thm (f : Nat → Page) (fuel : Nat) (name id : String)
    (e : FlushEvent) (es : List FlushEvent)
    (h : (scrape_subsidiary f fuel).flushes = e :: es) :
    fileLines name id (scrape_subsidiary f fuel)
      = (["subsidiary_name", "subsidiary_id"] ++ e.headers)
        :: (((scrape_subsidiary f fuel).flushes.map (fun ev => ev.batch)).flatten).map
             (fun r => [name, id] ++ r)
    ∧ e.writeHeaders = true
    ∧ (∀ e2 ∈ es, e2.writeHeaders = false) := by
  have hF : FlagsOk (scrape_subsidiary f fuel).flushes := by
    apply flushRemaining_flags
    apply scrapeLoop_hw
    exact ⟨trivial, by simp [initState]⟩
  rw [h] at hF
  obtain ⟨hew, hes⟩ := hF
  refine ⟨?_, hew, hes⟩
  rw [fileLines, h]
  simp only [List.map_cons, List.flatten_cons]
  rw [flatten_render name id es hes]
  simp [renderFlush, hew, List.map_append]

/-- C7, witness: the file layout of a one-page, one-row run. -/
theorem C7_witness :
    fileLines "A" "1" (scrape_subsidiary fOne 2)
      = [["subsidiary_name", "subsidiary_id", "H"], ["A", "1", "r"]] := by
  have hfl : (scrape_subsidiary fOne 2).flushes = [⟨true, ["H"], [["r"]]⟩] := by decide
  have h := C7_thm fOne 2 "A" "1" ⟨true, ["H"], [["r"]]⟩ [] hfl
  rw [h.1, hfl]
  rfl

/-- A finished state passes through the loop unchanged. -/
theorem clickLoop_finished (extf : Nat → Nat) (clkf : Nat → Bool) (maxp : Option Nat) :
    ∀ (fuel : Nat) (s : ClickState), s.finished = true
      → clickLoop extf clkf maxp fuel s = s := by
  intro fuel
  induction fuel with
  | zero => intro s _; rfl
  | succ fuel _ => intro s h; simp [clickLoop, h]

/-- Under the always-extracting, always-clickable environment with no page cap,
one step never exits the loop. -/
theorem extAll_no_exit :
    ∀ (fuel : Nat) (s : ClickState), s.finished = false →
      (clickLoop extAll clkAll none fuel s).finished = false := by
  intro fuel
  induction fuel with
  | zero => intro s h; simpa [clickLoop] using h
  | succ fuel ih =>
    intro s h
    rw [clickLoop]
    rw [if_neg (by simp [h])]
    apply ih
    simp [clickStep, extAll, clkAll, clickAdvance, maxReached, h]

/-- C5, counterexample: the control-discovery loop does not terminate for every
fetcher behaviour; with no max-pages cap, an environment whose extraction
always yields a contract and whose next-page click always succeeds (as with a
stale next control on unchanged content, which the code never checks for)
keeps the loop running for every amount of fuel. -/
theorem C5_counterexample :
    ¬ ∃ fuel : Nat, (scrape_subsidiary_click extAll clkAll none fuel).isSome = true := by
  rintro ⟨fuel, hf⟩
  rw [scrape_subsidiary_click, clickResult, extAll_no_exit fuel initClick rfl] at hf
  simp at hf

/-- A non-exiting advance with a page cap happens strictly below the cap and
moves the page cursor forward by one. -/
theorem clickAdvance_progress (clkf : Nat → Bool) (m : Nat) (hm : m ≠ 0)
    (s : ClickState) (h : (clickAdvance clkf (some m) s).finished = false) :
    s.current_page < m
    ∧ (clickAdvance clkf (some m) s).current_page = s.current_page + 1 := by
  simp only [clickAdvance, maxReached] at h ⊢
  simp only [if_neg hm] at h ⊢
  by_cases h1 : m ≤ s.current_page
  · simp only [if_pos (decide_eq_true h1)] at h
    simp at h
  · simp only [if_neg (by simpa using h1 : ¬decide (m ≤ s.current_page) = true)] at h ⊢
    by_cases h2 : clkf s.iter = true
    · simp only [if_pos h2]
      exact ⟨by omega, by trivial⟩
    · simp only [if_neg h2] at h
      simp at h

/-- One non-exiting step with a page cap happens strictly below the cap and
advances the page cursor by one. -/
theorem clickStep_progress (extf : Nat → Nat) (clkf : Nat → Bool) (m : Nat)
    (hm : m ≠ 0) (s : ClickState)
    (h : (clickStep extf clkf (some m) s).finished = false) :
    s.current_page < m
    ∧ (clickStep extf clkf (some m) s).current_page = s.current_page + 1 := by
  simp only [clickStep] at h ⊢
  by_cases hA : 0 < extf s.iter
  · simp only [if_pos hA] at h ⊢
    have hp := clickAdvance_progress clkf m hm _ h
    exact ⟨hp.1, hp.2⟩
  · simp only [if_neg hA] at h ⊢
    by_cases hB : s.current_page = 1
    · simp only [if_pos hB] at h
      simp at h
    · simp only [if_neg hB] at h ⊢
      by_cases hC : 3 ≤ s.failures + 1
      · simp only [if_pos hC] at h
        simp at h
      · simp only [if_neg hC] at h ⊢
        have hp := clickAdvance_progress clkf m hm _ h
        exact ⟨hp.1, hp.2⟩

/-- With a non-zero max-pages cap the loop always exits, whatever the
environment does: the page cursor grows by one each iteration toward the
cap, and every other branch exits directly. -/
theorem clickLoop_exits (extf : Nat → Nat) (clkf : Nat → Bool) (m : Nat) (hm : m ≠ 0) :
    ∀ (fuel : Nat) (s : ClickState),
      s.finished = false → s.current_page ≤ m → m < s.current_page + fuel →
      (clickLoop extf clkf (some m) fuel s).finished = true := by
  intro fuel
  induction fuel with
  | zero => intro s _ hle hlt; omega
  | succ fuel ih =>
    intro s h hle hlt
    rw [clickLoop, if_neg (by simp [h])]
    by_cases hf : (clickStep extf clkf (some m) s).finished = true
    · rw [clickLoop_finished _ _ _ fuel _ hf]
      exact hf
    · have hp := clickStep_progress extf clkf m hm s (by simpa using hf)
      apply ih _ (by simpa using hf)
      · rw [hp.2]; omega
      · rw [hp.2]; omega

/-- C5, amended: the page cursor progresses monotonically and the loop exits on
a missing or failed click, on the third consecutive extraction failure, on a
page-one failure, or at the max-pages cap; with a non-zero max-pages cap
termination holds for every environment, but the code never checks whether a
click changed the page content, so without a cap an environment with an
always-clickable control and always-extractable content loops forever. -/
theorem C5_thm (extf : Nat → Nat) (clkf : Nat → Bool) (m fuel : Nat)
    (hm : m ≠ 0) (hfuel : m ≤ fuel) :
    (scrape_subsidiary_click extf clkf (some m) fuel).isSome = true := by
  rw [scrape_subsidiary_click, clickResult]
  have hfin := clickLoop_exits extf clkf m hm fuel initClick rfl
    (by simp [initClick]; omega) (by simp [initClick]; omega)
  rw [hfin]
  cases he : (clickLoop extf clkf (some m) fuel initClick).early <;> simp [he]

/-- C5, witness: the exit property evaluated under the never-stopping
environment with a cap of two pages. -/
theorem C5_witness :
    (scrape_subsidiary_click extAll clkAll (some 2) 2).isSome = true :=
  C5_thm extAll clkAll 2 2 (by decide) (by decide)

/-- C6, counterexample: after three consecutive extraction failures the loop
stops, but the target is not declared failed: with one successful first page
and failures afterwards the recorded status is completed. -/
theorem C6_counterexample :
    scrape_subsidiary_click ext6 clkAll none 4 = some ⟨4, 5, "completed"⟩
    ∧ Option.map CStats.status (scrape_subsidiary_click ext6 clkAll none 4)
        ≠ some "failed" := by
  decide

/-- C6, amended: beyond the first page the loop tolerates consecutive
extraction failures and stops on the third, recording the target as completed
when rows were extracted (or empty otherwise) rather than failed; every
successful extraction resets the consecutive-failure counter to zero, so
interleaved successes keep the loop going past three total failures. -/
theorem C6_thm (extf : Nat → Nat) (clkf : Nat → Bool) (maxp : Option Nat)
    (s : ClickState) (h : 0 < extf s.iter) :
    (clickStep extf clkf maxp s).failures = 0
    ∧ scrape_subsidiary_click ext6 clkAll none 4 = some ⟨4, 5, "completed"⟩
    ∧ scrape_subsidiary_click ext7 clkAll none 7 = some ⟨7, 4, "completed"⟩ := by
  refine ⟨?_, by decide, by decide⟩
  rw [clickStep]
  rw [if_pos h]
  unfold clickAdvance
  split_ifs <;> rfl

/-- C6, witness: the failure-counter reset evaluated at a concrete successful
step. -/
theorem C6_witness : (clickStep extAll clkAll none initClick).failures = 0 :=
  (C6_thm extAll clkAll none initClick (by decide)).1

/-- C4, counterexample: with three targets whose second fetch always throws,
results exist for all three targets in order, but the failing target is
recorded with status error, not failed. -/
theorem C4_counterexample :
    scrape_all_subsidiaries threeTargets scrapeBoom
      = [("s1", ⟨2, 10, "completed", none⟩),
         ("s2", ⟨0, 0, "error", some "fetch boom"⟩),
         ("s3", ⟨2, 10, "completed", none⟩)]
    ∧ (⟨0, 0, "error", some "fetch boom"⟩ : RStats).status ≠ "failed" := by
  decide

/-- C4, amended: an exception raised while scraping one target is caught by the
orchestrator and recorded in that result as status error together with the
exception text, and the remaining targets are still processed in order: every
configured target receives exactly one result in configuration order, a
throwing target is recorded with status error and the error detail, a
successful target with its own statistics; in the three-target scenario with
target two always throwing, targets one and three complete and the run does
not abort. -/
theorem C4_thm (targets : List (String × String))
    (scrape : String → String → Except String RStats) :
    (scrape_all_subsidiaries targets scrape).map Prod.fst = targets.map Prod.fst
    ∧ (∀ nm url e, (nm, url) ∈ targets → scrape nm url = .error e
        → (nm, (⟨0, 0, "error", some e⟩ : RStats)) ∈ scrape_all_subsidiaries targets scrape)
    ∧ (∀ nm url st, (nm, url) ∈ targets → scrape nm url = .ok st
        → (nm, st) ∈ scrape_all_subsidiaries targets scrape)
    ∧ scrape_all_subsidiaries threeTargets scrapeBoom
        = [("s1", ⟨2, 10, "completed", none⟩),
           ("s2", ⟨0, 0, "error", some "fetch boom"⟩),
           ("s3", ⟨2, 10, "completed", none⟩)] := by
  refine ⟨?_, ?_, ?_, by decide⟩
  · induction targets with
    | nil => rfl
    | cons t ts ih =>
      cases t with
      | mk a b => simp [scrape_all_subsidiaries, ih]
  · intro nm url e hmem herr
    induction targets with
    | nil => simp at hmem
    | cons t ts ih =>
      cases t with
      | mk a b =>
        rw [List.mem_cons] at hmem
        rcases hmem with h1 | h1
        · rw [Prod.mk.injEq] at h1
          rw [scrape_all_subsidiaries]
          rw [← h1.1, ← h1.2, herr]
          exact List.mem_cons_self _ _
        · rw [scrape_all_subsidiaries]
          exact List.mem_cons_of_mem _ (ih h1)
  · intro nm url st hmem hok
    induction targets with
    | nil => simp at hmem
    | cons t ts ih =>
      cases t with
      | mk a b =>
        rw [List.mem_cons] at hmem
        rcases hmem with h1 | h1
        · rw [Prod.mk.injEq] at h1
          rw [scrape_all_subsidiaries]
          rw [← h1.1, ← h1.2, hok]
          exact List.mem_cons_self _ _
        · rw [scrape_all_subsidiaries]
          exact List.mem_cons_of_mem _ (ih h1)

/-- C4, witness: the per-target results of the three-target scenario, obtained
through the isolation theorem. -/
theorem C4_witness :
    (scrape_all_subsidiaries threeTargets scrapeBoom).map Prod.fst
      = threeTargets.map Prod.fst
    ∧ ("s2", (⟨0, 0, "error", some "fetch boom"⟩ : RStats))
        ∈ scrape_all_subsidiaries threeTargets scrapeBoom := by
  refine ⟨(C4_thm threeTargets scrapeBoom).1, ?_⟩
  exact (C4_thm threeTargets scrapeBoom).2.1 "s2" "u2" "fetch boom" (by decide) rfl
